import Mathlib

/-!
Verification development for the DeepSeeker research-agent engine.

The definitions below are shallow embeddings of the Python sources:
`deepseeker/schema.py`, `deepseeker/search/provider.py`,
`deepseeker/search/bingsift.py`, `deepseeker/reader.py`,
`deepseeker/orchestrator.py` and `deepseeker/protocol.py`.
External collaborators (network, LLM transport) are modelled as explicit
oracle parameters returning `Except` values; a Python exception raised by a
collaborator corresponds to the `Except.error` case.
-/

/-! ## Data model (`deepseeker/schema.py`) -/

/-- Query item model from `deepseeker/schema.py` (`class QueryItem`). -/
structure QueryItem where
  q : String
  recency_days : Option Int := none
  site_filters : Option (List String) := none
  lang : Option String := none
  notes : Option String := none
deriving DecidableEq

/-- Search plan model from `deepseeker/schema.py` (`class SearchPlan`). -/
structure SearchPlan where
  queries : List QueryItem
  per_query_limit : Int := 8
deriving DecidableEq

/-- Read pick model from `deepseeker/schema.py` (`class ReadPick`). -/
structure ReadPick where
  doc_id : String
  reason : Option String := none
  max_tokens : Option Int := some 2000
deriving DecidableEq

/-- Read selection model from `deepseeker/schema.py` (`class ReadSelection`). -/
structure ReadSelection where
  to_read : List ReadPick
deriving DecidableEq

/-- Controller decision model from `deepseeker/schema.py`
(`class ControllerDecision`).  The `role`, `stage` and `action` fields are
`Literal`-constrained strings; the constraints are enforced by
`validateControllerDecision` below, mirroring pydantic validation. -/
structure ControllerDecision where
  role : String := "controller_decision"
  decision_id : String
  stage : String
  action : String
  direct_answer : Option String := none
  search_plan : Option SearchPlan := none
  read_selection : Option ReadSelection := none
  notes : Option (List String) := none
deriving DecidableEq

/-- Search document model from `deepseeker/schema.py` (`class SearchDoc`).
The `HttpUrl` field is carried as its string representation; URL
canonicalization is delegated to the external search collaborator. -/
structure SearchDoc where
  doc_id : String
  title : String
  url : String
  snippet : Option String := none
  source : Option String := none
  published : Option String := none
deriving DecidableEq

/-- Reader reliability model from `deepseeker/schema.py`
(`class ReaderReliability`); the float rating is modelled as a rational. -/
structure ReaderReliability where
  rating : Rat
  reasons : String
deriving DecidableEq

/-- Reader report model from `deepseeker/schema.py` (`class ReaderReport`). -/
structure ReaderReport where
  role : String := "reader_report"
  doc_id : String
  source_url : String
  title : String
  verdict : String
  reliability : ReaderReliability
  key_points : List String
  mini_summary : String
  citation : String
deriving DecidableEq

/-! ## Validation of raw decision objects

Pydantic validates a parsed-JSON dictionary against the model classes of
`deepseeker/schema.py`.  The `Raw*` structures model such a dictionary:
`none` in an `Option` field means the key is absent (fields whose declared
type is `Optional[...]` with default `None` conflate an absent key and an
explicit `null`, exactly as the validated model does).  Validation errors
raised by pydantic are modelled as `Except.error`.  Inputs whose values have
the wrong JSON type are outside this model: the raw fields are already
well-typed, only presence and literal constraints are checked here, which is
what the claims about decision shapes exercise. -/

/-- Raw (pre-validation) `QueryItem` payload. -/
structure RawQueryItem where
  q : Option String := none
  recency_days : Option Int := none
  site_filters : Option (List String) := none
  lang : Option String := none
  notes : Option String := none
deriving DecidableEq

/-- Raw (pre-validation) `SearchPlan` payload; `max_tokens`-style defaulted
fields keep an outer `Option` for key absence. -/
structure RawSearchPlan where
  queries : Option (List RawQueryItem) := none
  per_query_limit : Option Int := none
deriving DecidableEq

/-- Raw (pre-validation) `ReadPick` payload.  The outer `Option` of
`max_tokens` is key absence, the inner one an explicit `null`. -/
structure RawReadPick where
  doc_id : Option String := none
  reason : Option String := none
  max_tokens : Option (Option Int) := none
deriving DecidableEq

/-- Raw (pre-validation) `ReadSelection` payload. -/
structure RawReadSelection where
  to_read : Option (List RawReadPick) := none
deriving DecidableEq

/-- Raw (pre-validation) `ControllerDecision` payload. -/
structure RawControllerDecision where
  role : Option String := none
  decision_id : Option String := none
  stage : Option String := none
  action : Option String := none
  direct_answer : Option String := none
  search_plan : Option RawSearchPlan := none
  read_selection : Option RawReadSelection := none
  notes : Option (List String) := none
deriving DecidableEq

/-- Validation of one `QueryItem`: `q` is the only required field. -/
def validateQueryItem (r : RawQueryItem) : Except String QueryItem :=
  match r.q with
  | none => .error "QueryItem.q: field required"
  | some q =>
      .ok { q := q, recency_days := r.recency_days, site_filters := r.site_filters,
            lang := r.lang, notes := r.notes }

/-- Validation of a list of `QueryItem`s (first error wins, as a pydantic
`ValidationError` aborts the whole parse). -/
def validateQueryItems : List RawQueryItem → Except String (List QueryItem)
  | [] => .ok []
  | r :: rs =>
      match validateQueryItem r with
      | .error e => .error e
      | .ok qi =>
          match validateQueryItems rs with
          | .error e => .error e
          | .ok qis => .ok (qi :: qis)

/-- Validation of a `SearchPlan`: `queries` required, `per_query_limit`
defaults to 8. -/
def validateSearchPlan (r : RawSearchPlan) : Except String SearchPlan :=
  match r.queries with
  | none => .error "SearchPlan.queries: field required"
  | some qs =>
      match validateQueryItems qs with
      | .error e => .error e
      | .ok qis => .ok { queries := qis, per_query_limit := r.per_query_limit.getD 8 }

/-- Validation of one `ReadPick`: `doc_id` required, `max_tokens` defaults
to 2000 when the key is absent. -/
def validateReadPick (r : RawReadPick) : Except String ReadPick :=
  match r.doc_id with
  | none => .error "ReadPick.doc_id: field required"
  | some d =>
      .ok { doc_id := d, reason := r.reason, max_tokens := r.max_tokens.getD (some 2000) }

/-- Validation of a list of `ReadPick`s. -/
def validateReadPicks : List RawReadPick → Except String (List ReadPick)
  | [] => .ok []
  | r :: rs =>
      match validateReadPick r with
      | .error e => .error e
      | .ok p =>
          match validateReadPicks rs with
          | .error e => .error e
          | .ok ps => .ok (p :: ps)

/-- Validation of a `ReadSelection`: `to_read` required. -/
def validateReadSelection (r : RawReadSelection) : Except String ReadSelection :=
  match r.to_read with
  | none => .error "ReadSelection.to_read: field required"
  | some ps =>
      match validateReadPicks ps with
      | .error e => .error e
      | .ok picks => .ok { to_read := picks }

/-- Validation of a `ControllerDecision` against `deepseeker/schema.py`:
`role` is a defaulted literal, `decision_id` is required, `stage` is
`Literal["initial", "after_read"]`, `action` is
`Literal["answer", "search", "select_for_read", "stop"]`, and the three
payload fields plus `notes` are all `Optional` with default `None` —
pydantic imposes no coupling between `action` and the payloads. -/
def validateControllerDecision (r : RawControllerDecision) :
    Except String ControllerDecision :=
  if r.role.getD "controller_decision" ≠ "controller_decision" then
    .error "ControllerDecision.role: literal mismatch"
  else
    match r.decision_id with
    | none => .error "ControllerDecision.decision_id: field required"
    | some did =>
      match r.stage with
      | none => .error "ControllerDecision.stage: field required"
      | some stage =>
        if ¬ (stage = "initial" ∨ stage = "after_read") then
          .error "ControllerDecision.stage: literal mismatch"
        else
          match r.action with
          | none => .error "ControllerDecision.action: field required"
          | some act =>
            if ¬ (act = "answer" ∨ act = "search" ∨ act = "select_for_read" ∨
                  act = "stop") then
              .error "ControllerDecision.action: literal mismatch"
            else
              match (match r.search_plan with
                     | none => Except.ok Option.none
                     | some rsp => (validateSearchPlan rsp).map Option.some) with
              | .error e => .error e
              | .ok sp =>
                match (match r.read_selection with
                       | none => Except.ok Option.none
                       | some rrs => (validateReadSelection rrs).map Option.some) with
                | .error e => .error e
                | .ok rs =>
                  .ok { role := "controller_decision", decision_id := did,
                        stage := stage, action := act,
                        direct_answer := r.direct_answer, search_plan := sp,
                        read_selection := rs, notes := r.notes }

/-- Dump of a validated `QueryItem` back to its raw dictionary form
(pydantic `model_dump`). -/
def QueryItem.toRaw (qi : QueryItem) : RawQueryItem :=
  { q := some qi.q, recency_days := qi.recency_days, site_filters := qi.site_filters,
    lang := qi.lang, notes := qi.notes }

/-- Dump of a validated `SearchPlan` back to its raw dictionary form. -/
def SearchPlan.toRaw (sp : SearchPlan) : RawSearchPlan :=
  { queries := some (sp.queries.map QueryItem.toRaw),
    per_query_limit := some sp.per_query_limit }

/-- Dump of a validated `ReadPick` back to its raw dictionary form. -/
def ReadPick.toRaw (p : ReadPick) : RawReadPick :=
  { doc_id := some p.doc_id, reason := p.reason, max_tokens := some p.max_tokens }

/-- Dump of a validated `ReadSelection` back to its raw dictionary form. -/
def ReadSelection.toRaw (s : ReadSelection) : RawReadSelection :=
  { to_read := some (s.to_read.map ReadPick.toRaw) }

/-- Dump of a validated `ControllerDecision` back to its raw dictionary
form. -/
def ControllerDecision.toRaw (d : ControllerDecision) : RawControllerDecision :=
  { role := some d.role, decision_id := some d.decision_id, stage := some d.stage,
    action := some d.action, direct_answer := d.direct_answer,
    search_plan := d.search_plan.map SearchPlan.toRaw,
    read_selection := d.read_selection.map ReadSelection.toRaw,
    notes := d.notes }

/-! ## Freshness resolution (`deepseeker/search/bingsift.py`) -/

/-- Freshness resolution translated from `BingSiftProvider.search`
(`deepseeker/search/bingsift.py`, lines 20-28): `when` starts at the
provider default `self.when`; a falsy `recency_days` (absent or `0`) keeps
it, otherwise `<= 1` gives `"day"`, `<= 7` gives `"week"` and everything
else gives `"month"`. -/
def resolveWhen (selfWhen : String) (recency_days : Option Int) : String :=
  match recency_days with
  | none => selfWhen
  | some rd =>
      if rd = 0 then selfWhen
      else if rd ≤ 1 then "day"
      else if rd ≤ 7 then "week"
      else "month"

/-- Freshness mapping as the specification's sentence states it (spec §4.2):
`recency_days <= 1` to `"day"`, `<= 7` to `"week"`, `<= 30` to `"month"`,
larger values to a long-range `"any"` bucket.  Stated only to be compared
with `resolveWhen`, the mapping the code actually implements. -/
def specFreshnessMapping (rd : Int) : String :=
  if rd ≤ 1 then "day"
  else if rd ≤ 7 then "week"
  else if rd ≤ 30 then "month"
  else "any"

/-! ## Search fan-out merge (`deepseeker/search/provider.py`) -/

/-- One entry of the `queries: list[dict]` argument of
`SearchProvider.search_multi`; absent dictionary keys are `none`. -/
structure QueryDict where
  q : Option String := none
  recency_days : Option Int := none
  site_filters : Option (List String) := none
  lang : Option String := none
deriving DecidableEq

/-- URL-keyed deduplication translated from the tail of
`SearchProvider.search_multi` (`seen` set plus `uniq` list, first
occurrence of each URL kept).  The `seen` set is carried as a list with the
same membership semantics. -/
def dedupByUrl : List SearchDoc → List String → List SearchDoc
  | [], _ => []
  | d :: ds, seen =>
      if d.url ∈ seen then dedupByUrl ds seen
      else d :: dedupByUrl ds (d.url :: seen)

/-- Per-query pooling loop of `SearchProvider.search_multi`: each query is
forwarded to `self.search` (the oracle `searchF`, receiving the query text
`qi.get("q", "")`, the per-query limit and the optional fields) and the
result lists are concatenated in plan order.  There is no `try` around the
call, so the first failing query propagates its exception. -/
def poolQueries
    (searchF : String → Int → Option Int → Option (List String) → Option String →
      Except String (List SearchDoc))
    (per_query_limit : Int) : List QueryDict → Except String (List SearchDoc)
  | [] => .ok []
  | qi :: rest =>
      match searchF (qi.q.getD "") per_query_limit qi.recency_days qi.site_filters
          qi.lang with
      | .error e => .error e
      | .ok items =>
          match poolQueries searchF per_query_limit rest with
          | .error e => .error e
          | .ok tail => .ok (items ++ tail)

/-- `SearchProvider.search_multi` (`deepseeker/search/provider.py`, lines
11-30): pool the per-query results in plan order, then deduplicate by URL. -/
def search_multi
    (searchF : String → Int → Option Int → Option (List String) → Option String →
      Except String (List SearchDoc))
    (queries : List QueryDict) (per_query_limit : Int := 8) :
    Except String (List SearchDoc) :=
  match poolQueries searchF per_query_limit queries with
  | .error e => .error e
  | .ok pooled => .ok (dedupByUrl pooled [])

/-! ## Concurrent reader pool (`deepseeker/reader.py`)

`run_parallel_readers` spawns one `worker` per document inside an
`anyio.create_task_group()`; every worker appends exactly one report to the
shared `results` list (the reader's report on success, a synthetic negative
report on any exception), and the task group joins all workers before the
list is returned.  The interleaving of the workers is modelled by a small
step relation on task-group states: a task can be started (moved from the
spawn queue to the running set) and a running task can finish (appending its
index to the completion order).  Exactly as in the source, where the
`concurrency` parameter is never consulted and no capacity limiter is
created, no step of the relation is constrained by the concurrency
argument. -/

/-- Synthetic negative report built in the `except` branch of `worker`
inside `run_parallel_readers` (`deepseeker/reader.py`, lines 20-31). -/
def syntheticReport (doc : SearchDoc) (e : String) : ReaderReport :=
  { doc_id := doc.doc_id, source_url := doc.url, title := doc.title,
    verdict := "not_relevant",
    reliability := { rating := 0, reasons := "reader error: " ++ e },
    key_points := [], mini_summary := "", citation := doc.url }

/-- Report appended by `worker` for one document: the result of
`run_single_reader` (the oracle `readE`, covering the LLM call and the
pydantic validation of its output) on success, the synthetic negative
report on any exception. -/
def reportFor (readE : SearchDoc → Except String ReaderReport)
    (doc : SearchDoc) : ReaderReport :=
  match readE doc with
  | .ok rep => rep
  | .error e => syntheticReport doc e

/-- State of the task group spawned by `run_parallel_readers`: indices of
workers not yet started, currently in flight, and finished (in completion
order, which is the append order of the shared `results` list). -/
structure TGState where
  pending : List Nat
  running : List Nat
  finished : List Nat
deriving DecidableEq

/-- Initial task-group state: `tg.start_soon(worker, d)` is executed for
every document in order, so all indices are queued and none has run. -/
def tgInit (n : Nat) : TGState := ⟨List.range n, [], []⟩

/-- One scheduling step of the task group: the next spawned worker may
start running (the source creates no semaphore or capacity limiter, so a
start is never blocked), and any running worker may finish, appending its
report to the shared `results` list. -/
inductive TGStep : TGState → TGState → Prop where
  | start (i : Nat) (p r f : List Nat) :
      TGStep ⟨i :: p, r, f⟩ ⟨p, i :: r, f⟩
  | finish (i : Nat) (p r₁ r₂ f : List Nat) :
      TGStep ⟨p, r₁ ++ i :: r₂, f⟩ ⟨p, r₁ ++ r₂, f ++ [i]⟩

/-- Task-group states reachable from the initial state for `n` documents. -/
inductive TGReach (n : Nat) : TGState → Prop where
  | init : TGReach n (tgInit n)
  | step {s s' : TGState} : TGReach n s → TGStep s s' → TGReach n s'

/-- Value of the shared `results` list of `run_parallel_readers`
(`deepseeker/reader.py`, lines 14-36) at task-group state `s`: one report
per finished worker, in completion order.  The `concurrency` parameter is
accepted and ignored, exactly as in the source. -/
def run_parallel_readers (readE : SearchDoc → Except String ReaderReport)
    (docs : List SearchDoc) (concurrency : Nat) (s : TGState) :
    List ReaderReport :=
  s.finished.filterMap (fun i => (docs.get? i).map (reportFor readE))

/-! ## Orchestrator (`deepseeker/orchestrator.py`)

`DeepSeekerOrchestrator.run` drives one session: plan, search fan-out,
selection, fetch-and-summarize, synthesis.  The LLM and network
collaborators are oracle parameters; an oracle `Except.error` is a Python
exception raised by the corresponding call.  `call_llm0_plan`,
`call_llm0_select` and `call_llm0_synthesize` are invoked outside any
`try`, so their exceptions propagate out of `run`; the per-query search
calls and the per-document fetch/summarize calls are wrapped in
`try/except` blocks that log and continue. -/

/-- Modelled from the spec: `deepseeker/types.py` (class `StepEvent`) is not
under `src/`; the event shape follows the `StepLogger.log` calls
(`step_type`, `message`, `error`) with the `data` payload restricted to the
`search_index` and `query` entries the audit-trail properties use. -/
structure StepEvent where
  step_type : String
  message : String
  error : Bool := false
  dataSearchIndex : Option Nat := none
  dataQuery : Option String := none
deriving DecidableEq

/-- Modelled from the spec: `deepseeker/types.py` (class `SearchFilters`) is
not under `src/`; field shape follows its use in `llm_client.py` and
`search_client.py` (keyword include/exclude and domain allow/deny lists). -/
structure SearchFilters where
  incl : List String := []
  excl : List String := []
  allow_domains : List String := []
  deny_domains : List String := []
deriving DecidableEq

/-- Modelled from the spec: `deepseeker/types.py` (class `SearchRequest`) is
not under `src/`; field shape follows `call_llm0_plan` and
`SearchClient.search` (query text, freshness bucket `when`, filters, result
cap). -/
structure SearchRequest where
  query : String
  when : String := "week"
  filters : SearchFilters := {}
  max_results : Int := 10
deriving DecidableEq

/-- Modelled from the spec: `deepseeker/types.py` (class `SearchResult`) is
not under `src/`; field shape follows `SearchClient.search` (id, title,
url, snippet plus optional metadata). -/
structure SearchResult where
  id : String
  title : String
  url : String
  snippet : String := ""
  domain : Option String := none
  display_url : Option String := none
  guessed_time : Option String := none
  attribution : Option String := none
deriving DecidableEq

/-- Modelled from the spec: `deepseeker/types.py` (class `PlanDecision`) is
not under `src/`; field shape follows `call_llm0_plan` (action string,
optional direct answer, list of search requests, notes). -/
structure PlanDecision where
  action : String
  direct_answer : Option String := none
  search_requests : List SearchRequest := []
  notes : Option String := none
deriving DecidableEq

/-- Modelled from the spec: `deepseeker/types.py` (class
`SelectionDecision`) is not under `src/`; field shape follows
`call_llm0_select` (list of selected result ids plus notes). -/
structure SelectionDecision where
  selected_ids : List String
  notes : Option String := none
deriving DecidableEq

/-- Modelled from the spec: `deepseeker/types.py` (class `ArticleSummary`)
is not under `src/`; the orchestrator only reads and writes `result_id` and
`relevance_score`, the summary text stands for the remaining payload. -/
structure ArticleSummary where
  result_id : Option String := none
  relevance_score : Rat := 0
  summary : String := ""
deriving DecidableEq

/-- Modelled from the spec: `deepseeker/types.py` (class `FinalAnswer`) is
not under `src/`; field shape follows `_wrap_direct_answer` (answer text,
key points, used result ids, notes). -/
structure FinalAnswer where
  answer : String
  key_points : List String := []
  used_results : List String := []
  notes : String := ""
deriving DecidableEq

/-- Modelled from the spec: `deepseeker/types.py` (class `DeepSeekerReport`)
is not under `src/`; field shape follows its construction in
`DeepSeekerOrchestrator.run` and the engine's final output of spec §6. -/
structure DeepSeekerReport where
  question : String
  steps : List StepEvent := []
  final_answer : Option FinalAnswer := none
  search_results : List SearchResult := []
  raw_summaries : List ArticleSummary := []
deriving DecidableEq

/-- Python truthiness of an `Optional[str]`: `None` and the empty string
are falsy. -/
def optStrTruthy : Option String → Bool
  | none => false
  | some s => s != ""

/-- Pool-insertion identifier from `DeepSeekerOrchestrator.run` line 86:
`r.id = f"s\x7bidx\x7d_r\x7br_index\x7d"`. -/
def mkId (idx rIndex : Nat) : String :=
  "s" ++ Nat.repr idx ++ "_r" ++ Nat.repr rIndex

/-- Relabeling loop of one search batch at pool insertion
(`DeepSeekerOrchestrator.run` lines 84-87, `enumerate(partial, start=1)`
carried as the counter `k`): each result gets id `mkId idx k`. -/
def relabelFrom (idx k : Nat) : List SearchResult → List SearchResult
  | [] => []
  | r :: rs => { r with id := mkId idx k } :: relabelFrom idx (k + 1) rs

/-- Relabeling of one search batch at pool insertion: result `r_index`
(1-based) of search `idx` gets id `mkId idx r_index`. -/
def relabelResults (idx : Nat) (batch : List SearchResult) : List SearchResult :=
  relabelFrom idx 1 batch

/-- Audit event logged before each search call. -/
def searchStartEvent (idx : Nat) (req : SearchRequest) : StepEvent :=
  { step_type := "search",
    message := "Running search #" ++ Nat.repr idx ++ " with query=\x27" ++
      req.query ++ "\x27 when=\x27" ++ req.when ++ "\x27.",
    error := false, dataSearchIndex := some idx, dataQuery := some req.query }

/-- Audit event logged when a search call raises
(`DeepSeekerOrchestrator.run` lines 75-82). -/
def searchFailEvent (idx : Nat) (req : SearchRequest) (e : String) : StepEvent :=
  { step_type := "error",
    message := "Search #" ++ Nat.repr idx ++ " failed: " ++ e,
    error := true, dataSearchIndex := some idx, dataQuery := some req.query }

/-- Audit event logged after a successful search call. -/
def searchOkEvent (idx : Nat) (count : Nat) : StepEvent :=
  { step_type := "search",
    message := "Search #" ++ Nat.repr idx ++ " returned " ++ Nat.repr count ++
      " results.",
    error := false, dataSearchIndex := some idx }

/-- Search fan-out loop of `DeepSeekerOrchestrator.run` (lines 66-93),
starting at `enumerate(..., start=1)` index `idx`: a failing query is
logged and skipped (`continue`), a successful batch is relabeled with
pool-insertion ids and appended to `all_results`.  Returns the collected
results and the audit events in order. -/
def searchLoop (searchE : Nat → SearchRequest → Except String (List SearchResult)) :
    Nat → List SearchRequest → List SearchResult × List StepEvent
  | _, [] => ([], [])
  | idx, req :: rest =>
      match searchE idx req with
      | .error e =>
          let tail := searchLoop searchE (idx + 1) rest
          (tail.1, searchStartEvent idx req :: searchFailEvent idx req e :: tail.2)
      | .ok batch =>
          let tail := searchLoop searchE (idx + 1) rest
          (relabelResults idx batch ++ tail.1,
           searchStartEvent idx req :: searchOkEvent idx batch.length :: tail.2)

/-- Lookup in the dictionary comprehension
`selected_map = \x7br.id: r for r in all_results\x7d`: the last result with a
given id wins. -/
def lastWithId (results : List SearchResult) (rid : String) : Option SearchResult :=
  results.reverse.find? (fun r => r.id == rid)

/-- Resolution of the selection against the pool
(`DeepSeekerOrchestrator.run` lines 120-123): ids missing from
`selected_map` are silently dropped. -/
def readTargets (results : List SearchResult) (ids : List String) : List SearchResult :=
  ids.filterMap (lastWithId results)

/-- Audit event logged before each fetch. -/
def fetchStartEvent (url : String) : StepEvent :=
  { step_type := "summarize", message := "Fetching and summarizing URL: " ++ url }

/-- Audit event logged when a page fetch raises. -/
def fetchFailEvent (url : String) (e : String) : StepEvent :=
  { step_type := "error",
    message := "Failed to fetch page for " ++ url ++ ": " ++ e, error := true }

/-- Audit event logged after a successful summarization (the relevance
score is rendered with `toString` in place of Python's `.2f` format). -/
def summarizeOkEvent (r : SearchResult) (score : Rat) : StepEvent :=
  { step_type := "summarize",
    message := "LLM1 summarized " ++ r.url ++ " (relevance=" ++ toString score ++ ")." }

/-- Audit event logged when a summarization raises. -/
def summarizeFailEvent (url : String) (e : String) : StepEvent :=
  { step_type := "error",
    message := "LLM1 summarization failed for " ++ url ++ ": " ++ e, error := true }

/-- Fetch-and-summarize loop of `DeepSeekerOrchestrator.run` (lines
135-169): a failing fetch or summarization is logged and skipped, a
successful summary gets `result_id` attached and is appended. -/
def summLoop (fetchE : String → Except String String)
    (summE : String → String → String → String → Except String ArticleSummary)
    (question : String) : List SearchResult → List ArticleSummary × List StepEvent
  | [] => ([], [])
  | r :: rest =>
      match fetchE r.url with
      | .error e =>
          let tail := summLoop fetchE summE question rest
          (tail.1, fetchStartEvent r.url :: fetchFailEvent r.url e :: tail.2)
      | .ok text =>
          match summE question r.url r.title text with
          | .error e =>
              let tail := summLoop fetchE summE question rest
              (tail.1, fetchStartEvent r.url :: summarizeFailEvent r.url e :: tail.2)
          | .ok s =>
              let tail := summLoop fetchE summE question rest
              ({ s with result_id := some r.id } :: tail.1,
               fetchStartEvent r.url :: summarizeOkEvent r s.relevance_score :: tail.2)

/-- Direct answer wrapper `DeepSeekerOrchestrator._wrap_direct_answer`. -/
def wrapDirectAnswer (answer_text : String) : FinalAnswer :=
  { answer := answer_text, key_points := [], used_results := [],
    notes := "Direct answer from LLM0 without web search." }

/-- Audit event logged before planning. -/
def planEvent : StepEvent :=
  { step_type := "plan", message := "LLM0 is planning: direct answer vs. search." }

/-- Audit event logged on the direct-answer path. -/
def directFinalEvent : StepEvent :=
  { step_type := "final", message := "LLM0 decided to answer directly without search." }

/-- Audit event logged on the no-search-requests abort path. -/
def noSearchEvent : StepEvent :=
  { step_type := "error", message := "LLM0 did not provide any search_requests. Aborting.",
    error := true }

/-- Audit event logged on the all-searches-empty abort path. -/
def allFailedEvent : StepEvent :=
  { step_type := "final", message := "All searches failed or returned no results; aborting.",
    error := true }

/-- Audit event summarizing the collected search results. -/
def totalEvent (count n : Nat) : StepEvent :=
  { step_type := "search",
    message := "Total of " ++ Nat.repr count ++ " results collected from " ++
      Nat.repr n ++ " searches." }

/-- Audit event logged before selection. -/
def selectStartEvent : StepEvent :=
  { step_type := "select", message := "LLM0 is selecting which results to read." }

/-- Audit event logged after selection. -/
def selectedEvent (k : Nat) : StepEvent :=
  { step_type := "select",
    message := "LLM0 selected " ++ Nat.repr k ++ " results for deep reading." }

/-- Audit event logged on the empty-selection abort path. -/
def noTargetsEvent : StepEvent :=
  { step_type := "final", message := "LLM0 did not select any results to read; aborting.",
    error := true }

/-- Audit event logged on the no-summaries abort path. -/
def noSummariesEvent : StepEvent :=
  { step_type := "final",
    message := "No article summaries available; returning empty answer.", error := true }

/-- Audit event logged before synthesis. -/
def synthesizeEvent : StepEvent :=
  { step_type := "final",
    message := "LLM0 is synthesizing the final report from all summaries." }

/-- `DeepSeekerOrchestrator.run` (`deepseeker/orchestrator.py`, lines
40-195) with the collaborators as oracles: `planE` for `call_llm0_plan`,
`searchE` for `self.search_client.search` (keyed by the 1-based search
index), `selectE` for `call_llm0_select`, `fetchE` for
`fetch_page_excerpt`, `summE` for `call_llm1_summarize` and `synthE` for
`call_llm0_synthesize`.  Oracle errors of `planE`, `selectE` and `synthE`
propagate (no `try` in the source); search, fetch and summarize errors are
logged and skipped. -/
def runE (planE : Except String PlanDecision)
    (searchE : Nat → SearchRequest → Except String (List SearchResult))
    (selectE : List SearchResult → Except String SelectionDecision)
    (fetchE : String → Except String String)
    (summE : String → String → String → String → Except String ArticleSummary)
    (synthE : List SearchResult → List ArticleSummary → Except String FinalAnswer)
    (question : String) : Except String DeepSeekerReport :=
  match planE with
  | .error e => .error e
  | .ok plan =>
    if plan.action == "direct_answer" && optStrTruthy plan.direct_answer then
      .ok { question := question, steps := [planEvent, directFinalEvent],
            final_answer := some (wrapDirectAnswer (plan.direct_answer.getD "")) }
    else if plan.action != "search_then_answer" || plan.search_requests.isEmpty then
      .ok { question := question, steps := [planEvent, noSearchEvent],
            final_answer := none }
    else
      let fanout := searchLoop searchE 1 plan.search_requests
      if fanout.1.isEmpty then
        .ok { question := question,
              steps := planEvent :: fanout.2 ++ [allFailedEvent],
              final_answer := none }
      else
        match selectE fanout.1 with
        | .error e => .error e
        | .ok selection =>
          let targets := readTargets fanout.1 selection.selected_ids
          let evs2 := planEvent :: fanout.2 ++
            [totalEvent fanout.1.length plan.search_requests.length,
             selectStartEvent, selectedEvent selection.selected_ids.length]
          if targets.isEmpty then
            .ok { question := question, steps := evs2 ++ [noTargetsEvent],
                  final_answer := none, search_results := fanout.1 }
          else
            let deepRead := summLoop fetchE summE question targets
            if deepRead.1.isEmpty then
              .ok { question := question,
                    steps := evs2 ++ deepRead.2 ++ [noSummariesEvent],
                    final_answer := none, search_results := fanout.1,
                    raw_summaries := deepRead.1 }
            else
              match synthE fanout.1 deepRead.1 with
              | .error e => .error e
              | .ok fa =>
                .ok { question := question,
                      steps := evs2 ++ deepRead.2 ++ [synthesizeEvent],
                      final_answer := some fa, search_results := fanout.1,
                      raw_summaries := deepRead.1 }

/-! ## Tool-call protocol (`deepseeker/protocol.py`)

`parse_tool_calls` extracts fenced blocks matching the regular expression
`TOOL_BLOCK_RE` (three backticks, the tag `deepseeker-tool` case-
insensitively, optional whitespace, a lazily-matched brace group, optional
whitespace, three closing backticks), parses each group with `json.loads`,
and keeps the blocks that carry a truthy `tool` and a dictionary `args`.
The scanner below implements exactly this pattern's matching discipline:
leftmost match, shortest brace group whose closing brace is followed by
optional whitespace and a closing fence, scanning resuming after each
match.  `json.loads` is implemented as a total parser into `PyJson`;
Python-specific lexical corner cases (unicode whitespace classes, strict
number grammar) are handled more liberally, which no proved property
depends on. -/

/-- Parsed JSON value as `json.loads` produces it (numbers as rationals). -/
inductive PyJson where
  | null
  | bool (b : Bool)
  | num (q : Rat)
  | str (s : String)
  | arr (elems : List PyJson)
  | obj (fields : List (String × PyJson))

/-- ASCII whitespace as matched by the pattern's whitespace class. -/
def pyIsSpace (c : Char) : Bool :=
  c == ' ' || c == '\t' || c == '\n' || c == '\r' || c == '\x0b' || c == '\x0c'

/-- Greedy whitespace skipping (`\backslash s*` before a required
non-whitespace literal backtracks to the maximal munch). -/
def dropSpaces : List Char → List Char
  | [] => []
  | c :: cs => if pyIsSpace c then dropSpaces cs else c :: cs

/-- Case-insensitive literal match (pattern given lowercase); returns the
rest of the input on success. -/
def matchCI : List Char → List Char → Option (List Char)
  | [], cs => some cs
  | _ :: _, [] => none
  | t :: ts, c :: cs => if c.toLower == t then matchCI ts cs else none

/-- Opening fence plus tag of `TOOL_BLOCK_RE`. -/
def toolBlockTag : List Char := "\x60\x60\x60deepseeker-tool".toList

/-- Closing fence of `TOOL_BLOCK_RE`. -/
def closingFence : List Char := "\x60\x60\x60".toList

/-- Lazy search for the closing brace of the group: the first closing brace
followed by optional whitespace and the closing fence ends the group
(everything before it, including earlier closing braces, is group body).
Returns the brace group (braces included, as `match.group(1)`) and the
input after the closing fence. -/
def findClose (acc : List Char) : List Char → Option (String × List Char)
  | [] => none
  | c :: rest =>
      if c == '\x7d' then
        match matchCI closingFence (dropSpaces rest) with
        | some rest' => some (String.mk ('\x7b' :: acc.reverse ++ ['\x7d']), rest')
        | none => findClose (c :: acc) rest
      else findClose (c :: acc) rest

/-- Attempt to match `TOOL_BLOCK_RE` at the current position. -/
def tryMatchAt (cs : List Char) : Option (String × List Char) :=
  match matchCI toolBlockTag cs with
  | none => none
  | some afterTag =>
      match dropSpaces afterTag with
      | '\x7b' :: body => findClose [] body
      | _ => none

/-- Scanner core for `TOOL_BLOCK_RE.finditer`: try to match at each
position from the left, resume after the end of a successful match.  The
fuel is the input length, enough since every step advances at least one
character. -/
def scanAux : Nat → List Char → List String
  | 0, _ => []
  | _ + 1, [] => []
  | fuel + 1, cs =>
      match tryMatchAt cs with
      | some gr => gr.1 :: scanAux fuel gr.2
      | none => scanAux fuel cs.tail

/-- All brace groups of the fenced tool blocks of `text`, leftmost first
(`TOOL_BLOCK_RE.finditer(text)`). -/
def scanBlocks (text : String) : List String := scanAux text.length text.toList

/-- Numeric value of a decimal digit character. -/
def digitVal (c : Char) : Nat := c.toNat - 48

/-- Value of a list of decimal digit characters, most significant first. -/
def digitsToNat (ds : List Char) : Nat := ds.foldl (fun a c => a * 10 + digitVal c) 0

/-- Value of a hexadecimal digit character. -/
def hexVal (c : Char) : Option Nat :=
  if c.isDigit then some (c.toNat - 48)
  else if 'a' ≤ c ∧ c ≤ 'f' then some (c.toNat - 87)
  else if 'A' ≤ c ∧ c ≤ 'F' then some (c.toNat - 55)
  else none

/-- JSON string escape characters. -/
def escChar : Char → Option Char
  | '"' => some '"'
  | '\\' => some '\\'
  | '/' => some '/'
  | 'b' => some '\x08'
  | 'f' => some '\x0c'
  | 'n' => some '\n'
  | 'r' => some '\r'
  | 't' => some '\t'
  | _ => none

/-- JSON string body parser (opening quote already consumed); returns the
decoded string and the input after the closing quote. -/
def parseStringAux (acc : List Char) : List Char → Option (String × List Char)
  | [] => none
  | '\\' :: 'u' :: a :: b :: c :: d :: rest =>
      match hexVal a, hexVal b, hexVal c, hexVal d with
      | some ha, some hb, some hc, some hd =>
          parseStringAux (Char.ofNat (((ha * 16 + hb) * 16 + hc) * 16 + hd) :: acc) rest
      | _, _, _, _ => none
  | '\\' :: e :: rest =>
      match escChar e with
      | some ch => parseStringAux (ch :: acc) rest
      | none => none
  | '"' :: rest => some (String.mk acc.reverse, rest)
  | c :: rest => parseStringAux (c :: acc) rest

/-- JSON exponent part (after `e`/`E`). -/
def parseExp (cs : List Char) : Int × List Char :=
  match cs with
  | '+' :: rest => ((digitsToNat (rest.takeWhile (·.isDigit)) : Int),
      rest.dropWhile (·.isDigit))
  | '-' :: rest => (-(digitsToNat (rest.takeWhile (·.isDigit)) : Int),
      rest.dropWhile (·.isDigit))
  | _ => ((digitsToNat (cs.takeWhile (·.isDigit)) : Int), cs.dropWhile (·.isDigit))

/-- JSON number parser. -/
def parseNumber (cs : List Char) : Option (Rat × List Char) :=
  let (neg, cs1) : Bool × List Char :=
    match cs with
    | '-' :: rest => (true, rest)
    | _ => (false, cs)
  let intDs := cs1.takeWhile (·.isDigit)
  let cs2 := cs1.dropWhile (·.isDigit)
  if intDs.isEmpty then none
  else
    let (fracDs, cs3) : List Char × List Char :=
      match cs2 with
      | '.' :: rest => (rest.takeWhile (·.isDigit), rest.dropWhile (·.isDigit))
      | _ => ([], cs2)
    let (expVal, cs4) : Int × List Char :=
      match cs3 with
      | 'e' :: rest => parseExp rest
      | 'E' :: rest => parseExp rest
      | _ => (0, cs3)
    let mant : Rat :=
      (digitsToNat intDs : Rat) + (digitsToNat fracDs : Rat) / ((10 : Rat) ^ fracDs.length)
    some ((if neg then -mant else mant) * (10 : Rat) ^ expVal, cs4)

/-- JSON array elements (element parser passed explicitly; fuel bounds the
element count). -/
def parseElems (pv : List Char → Option (PyJson × List Char)) :
    Nat → List Char → Option (List PyJson × List Char)
  | 0, _ => none
  | fuel + 1, cs =>
      match cs with
      | ']' :: rest => some ([], rest)
      | _ =>
          match pv cs with
          | none => none
          | some (v, rest) =>
              match dropSpaces rest with
              | ',' :: rest2 =>
                  match parseElems pv fuel (dropSpaces rest2) with
                  | none => none
                  | some (vs, rest3) => some (v :: vs, rest3)
              | ']' :: rest2 => some ([v], rest2)
              | _ => none

/-- JSON object fields (value parser passed explicitly). -/
def parseFields (pv : List Char → Option (PyJson × List Char)) :
    Nat → List Char → Option (List (String × PyJson) × List Char)
  | 0, _ => none
  | fuel + 1, cs =>
      match cs with
      | '\x7d' :: rest => some ([], rest)
      | '"' :: rest =>
          match parseStringAux [] rest with
          | none => none
          | some (k, rest1) =>
              match dropSpaces rest1 with
              | ':' :: rest2 =>
                  match pv (dropSpaces rest2) with
                  | none => none
                  | some (v, rest3) =>
                      match dropSpaces rest3 with
                      | ',' :: rest4 =>
                          match parseFields pv fuel (dropSpaces rest4) with
                          | none => none
                          | some (fs, rest5) => some ((k, v) :: fs, rest5)
                      | '\x7d' :: rest4 => some ([(k, v)], rest4)
                      | _ => none
              | _ => none
      | _ => none

/-- JSON value parser; the fuel (initially the input length plus one)
bounds the nesting depth. -/
def parseValue : Nat → List Char → Option (PyJson × List Char)
  | 0, _ => none
  | fuel + 1, cs =>
      match cs with
      | 'n' :: 'u' :: 'l' :: 'l' :: rest => some (.null, rest)
      | 't' :: 'r' :: 'u' :: 'e' :: rest => some (.bool true, rest)
      | 'f' :: 'a' :: 'l' :: 's' :: 'e' :: rest => some (.bool false, rest)
      | '"' :: rest => (parseStringAux [] rest).map (fun p => (.str p.1, p.2))
      | '[' :: rest =>
          (parseElems (parseValue fuel) (fuel + 1) (dropSpaces rest)).map
            (fun p => (.arr p.1, p.2))
      | '\x7b' :: rest =>
          (parseFields (parseValue fuel) (fuel + 1) (dropSpaces rest)).map
            (fun p => (.obj p.1, p.2))
      | _ => (parseNumber cs).map (fun p => (.num p.1, p.2))

/-- Model of `json.loads`: parse one value, allow trailing whitespace,
reject trailing garbage; a `JSONDecodeError` is `none`. -/
def jparse (s : String) : Option PyJson :=
  match parseValue (s.length + 1) (dropSpaces s.toList) with
  | none => none
  | some (v, rest) => if (dropSpaces rest).isEmpty then some v else none

/-- Python truthiness of a parsed JSON value (an object with duplicate keys
collapses to a nonempty dictionary either way). -/
def pyTruthy : PyJson → Bool
  | .null => false
  | .bool b => b
  | .num q => q != 0
  | .str s => s != ""
  | .arr l => !l.isEmpty
  | .obj l => !l.isEmpty

/-- `data.get(key)` on a parsed JSON dictionary, with the absent-key `None`
collapsed into `PyJson.null` (Python's `None` behaves identically to a
parsed JSON `null` in the truthiness and `str()` uses below); for duplicate
keys the last occurrence wins, as in `dict`. -/
def dGetD (j : PyJson) (k : String) : PyJson :=
  match j with
  | .obj fs =>
      match fs.reverse.find? (fun p => p.1 == k) with
      | some p => p.2
      | none => .null
  | _ => .null

/-- Dictionary test `isinstance(args, dict)`. -/
def PyJson.isObj : PyJson → Bool
  | .obj _ => true
  | _ => false

/-- Python `str()` of the JSON-derived values that can appear as `call_id`;
rendered exactly for strings, booleans, `None` and integers (the only cases
the proved properties touch); floats and containers get a placeholder. -/
def pyStr : PyJson → String
  | .str s => s
  | .bool b => if b then "True" else "False"
  | .null => "None"
  | .num q => if q.den = 1 then toString q.num else toString q
  | .arr _ => "<list>"
  | .obj _ => "<dict>"

/-- Parsed tool call from `deepseeker/protocol.py` (`@dataclass ToolCall`);
the `tool` field keeps whatever truthy JSON value the block carried (the
dataclass does not coerce it), `id` is the `str()` of the chosen call id,
`args` is the dictionary kept for the call. -/
structure ToolCall where
  tool : PyJson
  id : String
  args : PyJson

/-- Per-block body of the `for match in TOOL_BLOCK_RE.finditer` loop
(`deepseeker/protocol.py`, lines 45-52), after `json.loads` succeeded:
`call_id = data.get("id") or tool or "tool"`, `args = data.get("args") or
\x7b\x7d`, skip when `tool` is falsy or `args` is not a dictionary. -/
def processBlock (data : PyJson) : Option ToolCall :=
  let tool := dGetD data "tool"
  let callId := if pyTruthy (dGetD data "id") then dGetD data "id"
    else if pyTruthy tool then tool
    else .str "tool"
  let args := if pyTruthy (dGetD data "args") then dGetD data "args" else .obj []
  if !(pyTruthy tool) then none
  else
    match args with
    | .obj fs => some ⟨tool, pyStr callId, .obj fs⟩
    | _ => none

/-- `parse_tool_calls` (`deepseeker/protocol.py`, lines 29-54): extract the
fenced blocks, drop the ones whose body fails `json.loads`, process the
rest, never raising. -/
def parse_tool_calls (text : String) : List ToolCall :=
  (scanBlocks text).filterMap (fun raw => (jparse raw).bind processBlock)

/-! ## Concrete scenario inputs

Closed instances used to evaluate the definitions on concrete inputs in the
theorems below (failure scenarios of spec §8 and small variations). -/

/-- Plan oracle choosing a single-query search (Scenario A/C shape). -/
def cPlanSearch : Except String PlanDecision :=
  .ok { action := "search_then_answer", search_requests := [{ query := "q1" }] }

/-- Plan oracle answering directly with `"42"` (Scenario B). -/
def cPlanDirect : Except String PlanDecision :=
  .ok { action := "direct_answer", direct_answer := some "42" }

/-- Search oracle raising `TransportError` on every query. -/
def cSearchFail : Nat → SearchRequest → Except String (List SearchResult) :=
  fun _ _ => .error "TransportError"

/-- Selection oracle choosing nothing. -/
def cSelectNone : List SearchResult → Except String SelectionDecision :=
  fun _ => .ok { selected_ids := [] }

/-- Fetch oracle raising on every URL. -/
def cFetchNone : String → Except String String := fun _ => .error "NotFoundError"

/-- Summarize oracle raising on every document. -/
def cSummNone : String → String → String → String → Except String ArticleSummary :=
  fun _ _ _ _ => .error "ParseError"

/-- Synthesis oracle raising. -/
def cSynthNone : List SearchResult → List ArticleSummary → Except String FinalAnswer :=
  fun _ _ => .error "TransportError"

/-- Report produced by the direct-answer path on question `"q"`. -/
def cDirectReport : DeepSeekerReport :=
  { question := "q", steps := [planEvent, directFinalEvent],
    final_answer := some (wrapDirectAnswer "42") }

/-- First sample document for the reader pool. -/
def cDocA : SearchDoc := { doc_id := "d1", title := "A", url := "https://a.example/" }

/-- Second sample document for the reader pool; its read fails. -/
def cDocB : SearchDoc := { doc_id := "d2", title := "B", url := "https://b.example/" }

/-- Sample reader batch. -/
def cDocs : List SearchDoc := [cDocA, cDocB]

/-- Successful reader output for a document. -/
def cOkReport (d : SearchDoc) : ReaderReport :=
  { doc_id := d.doc_id, source_url := d.url, title := d.title, verdict := "relevant",
    reliability := { rating := 7/10, reasons := "ok" }, key_points := [],
    mini_summary := "short", citation := d.url }

/-- Reader oracle failing exactly on `cDocB` (Scenario D shape). -/
def cReadE : SearchDoc → Except String ReaderReport :=
  fun d => if d.doc_id == "d2" then .error "boom" else .ok (cOkReport d)

/-- Completed task-group state for two documents (both finished in order). -/
def cTermState : TGState := ⟨[], [], [0, 1]⟩

/-- Mid-flight task-group state for two documents: both started, none
finished. -/
def cMidState : TGState := ⟨[], [1, 0], []⟩

/-- Search collaborator for `search_multi` returning the same URL from two
different queries and raising on query text `"q2"`. -/
def cMultiOracle :
    String → Int → Option Int → Option (List String) → Option String →
      Except String (List SearchDoc) :=
  fun q _ _ _ _ =>
    if q == "q2" then .error "TransportError"
    else if q == "a" then .ok [{ doc_id := "ha", title := "t1", url := "u1" }]
    else .ok [{ doc_id := "hb", title := "t2", url := "u1" },
              { doc_id := "hc", title := "t3", url := "u2" }]

/-- Three-query plan whose second query fails (Scenario C). -/
def cThreeQueries : List QueryDict :=
  [{ q := some "a" }, { q := some "q2" }, { q := some "b" }]

/-- Two-query plan with an overlapping URL across the queries. -/
def cTwoQueries : List QueryDict := [{ q := some "a" }, { q := some "b" }]

/-- Search result returned by the orchestrator-level search oracle for
query index `i` (the pre-relabel id is the collaborator's `r1`). -/
def cRes (i : Nat) : SearchResult :=
  { id := "r1", title := "t" ++ Nat.repr i, url := "u" ++ Nat.repr i }

/-- Orchestrator search oracle raising on search #2 only (Scenario C). -/
def cSearchMixed : Nat → SearchRequest → Except String (List SearchResult) :=
  fun i _ => if i == 2 then .error "TransportError" else .ok [cRes i]

/-- Three search requests for the Scenario C fan-out. -/
def cReqs3 : List SearchRequest :=
  [{ query := "q1" }, { query := "q2" }, { query := "q3" }]

/-- Orchestrator search oracle succeeding on every query with one result. -/
def cSearchOk : Nat → SearchRequest → Except String (List SearchResult) :=
  fun i _ => .ok [cRes i]

/-- Raw decision declaring `action=answer` with no payload at all. -/
def cRawAnswerNoPayload : RawControllerDecision :=
  { decision_id := some "d1", stage := some "initial", action := some "answer" }

/-- Raw decision mirroring the repository test input
`tests/test_protocol_parsing.py::CTRL_JSON`. -/
def cRawCtrl : RawControllerDecision :=
  { role := some "controller_decision",
    decision_id := some "123e4567-e89b-12d3-a456-426614174000",
    stage := some "initial", action := some "search",
    search_plan := some { queries := some [{ q := some "test", recency_days := some 30 }],
                          per_query_limit := some 8 } }

/-- Validated decision corresponding to `cRawCtrl`. -/
def cCtrl : ControllerDecision :=
  { decision_id := "123e4567-e89b-12d3-a456-426614174000",
    stage := "initial", action := "search",
    search_plan := some { queries := [{ q := "test", recency_days := some 30 }],
                          per_query_limit := 8 } }

/-- Pool `search_multi` builds for `cTwoQueries` before deduplication. -/
def cPooled : List SearchDoc :=
  [{ doc_id := "ha", title := "t1", url := "u1" },
   { doc_id := "hb", title := "t2", url := "u1" },
   { doc_id := "hc", title := "t3", url := "u2" }]

/-- Deduplicated pool `search_multi` returns for `cTwoQueries`. -/
def cOut : List SearchDoc :=
  [{ doc_id := "ha", title := "t1", url := "u1" },
   { doc_id := "hc", title := "t3", url := "u2" }]

/-- Report the orchestrator returns when the search succeeds but the
selection is empty (pool retained, `final_answer` unset). -/
def cNoTargetsReport : DeepSeekerReport :=
  { question := "q",
    steps := [planEvent, searchStartEvent 1 { query := "q1" }, searchOkEvent 1 1,
              totalEvent 1 1, selectStartEvent, selectedEvent 0, noTargetsEvent],
    final_answer := none,
    search_results := relabelFrom 1 1 [cRes 1] }

/-- Model output containing one fenced tool block whose `args` is the empty
JSON list. -/
def cToolText : String :=
  "\x60\x60\x60deepseeker-tool\x7b\"tool\": \"t\", \"args\": []\x7d\x60\x60\x60"

/-- The tool call `parse_tool_calls` produces for `cToolText`. -/
def cToolCall : ToolCall := ⟨.str "t", "t", .obj []⟩

/-- Truth of the direct-answer branch condition of
`DeepSeekerOrchestrator.run` for a given plan oracle. -/
def directPathB (planE : Except String PlanDecision) : Bool :=
  match planE with
  | .error _ => false
  | .ok plan => plan.action == "direct_answer" && optStrTruthy plan.direct_answer

/-! ## Theorems -/

/-- Round-tripping one validated `QueryItem` through its dump re-validates
to the same item. -/
theorem validateQueryItem_toRaw (qi : QueryItem) :
    validateQueryItem qi.toRaw = .ok qi := rfl

/-- Round-tripping a validated query list through its dump re-validates to
the same list. -/
theorem validateQueryItems_toRaw (l : List QueryItem) :
    validateQueryItems (l.map QueryItem.toRaw) = .ok l := by
  induction l with
  | nil => rfl
  | cons q qs ih => simp [validateQueryItems, validateQueryItem_toRaw, ih]

/-- Round-tripping a validated `SearchPlan` through its dump re-validates
to the same plan. -/
theorem validateSearchPlan_toRaw (sp : SearchPlan) :
    validateSearchPlan sp.toRaw = .ok sp := by
  simp [validateSearchPlan, SearchPlan.toRaw, validateQueryItems_toRaw]

/-- Round-tripping one validated `ReadPick` through its dump re-validates
to the same pick. -/
theorem validateReadPick_toRaw (p : ReadPick) :
    validateReadPick p.toRaw = .ok p := rfl

/-- Round-tripping a validated pick list through its dump re-validates to
the same list. -/
theorem validateReadPicks_toRaw (l : List ReadPick) :
    validateReadPicks (l.map ReadPick.toRaw) = .ok l := by
  induction l with
  | nil => rfl
  | cons p ps ih => simp [validateReadPicks, validateReadPick_toRaw, ih]

/-- Round-tripping a validated `ReadSelection` through its dump
re-validates to the same selection. -/
theorem validateReadSelection_toRaw (s : ReadSelection) :
    validateReadSelection s.toRaw = .ok s := by
  simp [validateReadSelection, ReadSelection.toRaw, validateReadPicks_toRaw]

/-- Shape facts pydantic guarantees about any successfully validated
decision: the literal fields hold one of their allowed values. -/
theorem validateCD_ok_shape {r : RawControllerDecision} {d : ControllerDecision}
    (h : validateControllerDecision r = .ok d) :
    d.role = "controller_decision" ∧
    (d.stage = "initial" ∨ d.stage = "after_read") ∧
    (d.action = "answer" ∨ d.action = "search" ∨ d.action = "select_for_read" ∨
      d.action = "stop") := by
  unfold validateControllerDecision at h
  split at h
  · exact absurd h (by simp)
  · split at h
    · exact absurd h (by simp)
    · split at h
      · exact absurd h (by simp)
      · split at h
        · exact absurd h (by simp)
        · rename_i hstage
          split at h
          · exact absurd h (by simp)
          · split at h
            · exact absurd h (by simp)
            · rename_i hact
              split at h
              · exact absurd h (by simp)
              · split at h
                · exact absurd h (by simp)
                · cases h
                  exact ⟨rfl, not_not.mp hstage, not_not.mp hact⟩

/-- Re-validating the dump of a shape-correct decision succeeds and returns
the same decision. -/
theorem validateCD_toRaw_ok (d : ControllerDecision)
    (hrole : d.role = "controller_decision")
    (hst : d.stage = "initial" ∨ d.stage = "after_read")
    (hact : d.action = "answer" ∨ d.action = "search" ∨ d.action = "select_for_read" ∨
      d.action = "stop") :
    validateControllerDecision d.toRaw = .ok d := by
  obtain ⟨role, did, st, act, da, sp, rs, notes⟩ := d
  obtain rfl : role = "controller_decision" := hrole
  rcases show st = "initial" ∨ st = "after_read" from hst with rfl | rfl <;>
    rcases show act = "answer" ∨ act = "search" ∨ act = "select_for_read" ∨
        act = "stop" from hact with rfl | rfl | rfl | rfl <;>
      cases sp <;> cases rs <;>
        simp [validateControllerDecision, ControllerDecision.toRaw,
          validateSearchPlan_toRaw, validateReadSelection_toRaw, Except.map]

/-- Claim C9: validating the dump of an already-validated decision succeeds
again and yields the same decision (re-validation is idempotent). -/
theorem C9_revalidation_idempotent (r : RawControllerDecision)
    (d : ControllerDecision) (h : validateControllerDecision r = .ok d) :
    validateControllerDecision d.toRaw = .ok d :=
  validateCD_toRaw_ok d (validateCD_ok_shape h).1 (validateCD_ok_shape h).2.1
    (validateCD_ok_shape h).2.2

/-- Claim C9 witness: the repository's own test decision re-validates to
itself. -/
theorem C9_revalidation_idempotent_witness :
    validateControllerDecision cCtrl.toRaw = .ok cCtrl :=
  C9_revalidation_idempotent cRawCtrl cCtrl rfl

/-- Claim C6 counterexample: a decision declaring `action="answer"` with no
`direct_answer` at all passes `ControllerDecision` validation — the schema
of `deepseeker/schema.py` has no validator coupling the action to its
payload, so the claimed `SchemaError` is never raised. -/
theorem C6_counterexample :
    (validateControllerDecision cRawAnswerNoPayload).isOk = true ∧
    cRawAnswerNoPayload.action = some "answer" ∧
    cRawAnswerNoPayload.direct_answer = none :=
  ⟨rfl, rfl, rfl⟩

/-- Claim C6 (amended): validation checks only field presence and literal
values; for every allowed `stage` and `action` a decision with all three
payload fields absent validates successfully. -/
theorem C6_no_payload_coupling (did st act : String)
    (hst : st = "initial" ∨ st = "after_read")
    (hact : act = "answer" ∨ act = "search" ∨ act = "select_for_read" ∨
      act = "stop") :
    validateControllerDecision
      { decision_id := some did, stage := some st, action := some act } =
    .ok { decision_id := did, stage := st, action := act } := by
  rcases hst with rfl | rfl <;>
    rcases hact with rfl | rfl | rfl | rfl <;> rfl

/-- Claim C6 witness: the payload-free `answer` decision at `stage=initial`
validates. -/
theorem C6_no_payload_coupling_witness :
    validateControllerDecision
      { decision_id := some "d1", stage := some "initial", action := some "answer" } =
    .ok { decision_id := "d1", stage := "initial", action := "answer" } :=
  C6_no_payload_coupling "d1" "initial" "answer" (Or.inl rfl) (Or.inl rfl)

/-- Claim C4 counterexample: the code maps `recency_days = 31` to
`"month"`, not to the long-range `"any"` bucket the claim's mapping
assigns to every value above 30, and maps `recency_days = 0` to the
provider default instead of `"day"`. -/
theorem C4_counterexample :
    resolveWhen "week" (some 31) = "month" ∧ specFreshnessMapping 31 = "any" ∧
    resolveWhen "week" (some 0) = "week" ∧ specFreshnessMapping 0 = "day" :=
  ⟨rfl, rfl, rfl, rfl⟩

/-- Claim C4 (amended): the mapping is exact and identical for every query,
but its table is: absent or `0` keeps the provider default, nonzero values
at most 1 give `"day"`, 2-7 give `"week"`, and everything of at least 8
gives `"month"` — there is no 30-day boundary and no long-range bucket. -/
theorem C4_freshness_mapping (d : String) (rd : Int) :
    resolveWhen d none = d ∧
    resolveWhen d (some 0) = d ∧
    (rd ≠ 0 → rd ≤ 1 → resolveWhen d (some rd) = "day") ∧
    (2 ≤ rd → rd ≤ 7 → resolveWhen d (some rd) = "week") ∧
    (8 ≤ rd → resolveWhen d (some rd) = "month") := by
  refine ⟨rfl, rfl, ?_, ?_, ?_⟩
  · intro h0 h1
    simp only [resolveWhen]
    rw [if_neg h0, if_pos h1]
  · intro h2 h7
    simp only [resolveWhen]
    rw [if_neg (by omega), if_neg (by omega), if_pos h7]
  · intro h8
    simp only [resolveWhen]
    rw [if_neg (by omega), if_neg (by omega), if_neg (by omega)]

/-- Claim C4 witness: the amended table evaluated at 1, 5 and 365 days. -/
theorem C4_freshness_mapping_witness :
    resolveWhen "month" (some 1) = "day" ∧ resolveWhen "week" (some 5) = "week" ∧
    resolveWhen "week" (some 365) = "month" :=
  ⟨(C4_freshness_mapping "month" 1).2.2.1 (by decide) (by decide),
   (C4_freshness_mapping "week" 5).2.2.2.1 (by decide) (by decide),
   (C4_freshness_mapping "week" 365).2.2.2.2 (by decide)⟩

/-- The deduplicated pool is a sublist of the concatenated pool: surviving
documents keep their first-seen relative order. -/
theorem dedupByUrl_sublist (ds : List SearchDoc) (seen : List String) :
    (dedupByUrl ds seen).Sublist ds := by
  induction ds generalizing seen with
  | nil => simp [dedupByUrl]
  | cons d ds ih =>
      simp only [dedupByUrl]
      split
      · exact (ih seen).cons d
      · exact (ih _).cons₂ d

/-- No document surviving deduplication has a URL already in the seen set. -/
theorem dedupByUrl_not_seen (ds : List SearchDoc) (seen : List String) :
    ∀ d ∈ dedupByUrl ds seen, d.url ∉ seen := by
  induction ds generalizing seen with
  | nil => simp [dedupByUrl]
  | cons a ds ih =>
      simp only [dedupByUrl]
      split
      · exact ih seen
      · rename_i hseen
        intro d hd
        rcases List.mem_cons.mp hd with rfl | hd
        · exact hseen
        · intro hmem
          exact ih (a.url :: seen) d hd (List.mem_cons_of_mem _ hmem)

/-- URLs are pairwise distinct after deduplication. -/
theorem dedupByUrl_nodup (ds : List SearchDoc) (seen : List String) :
    ((dedupByUrl ds seen).map (fun d => d.url)).Nodup := by
  induction ds generalizing seen with
  | nil => simp [dedupByUrl]
  | cons a ds ih =>
      simp only [dedupByUrl]
      split
      · exact ih seen
      · simp only [List.map_cons, List.nodup_cons]
        refine ⟨?_, ih _⟩
        intro hmem
        obtain ⟨d, hd, hurl⟩ := List.mem_map.mp hmem
        exact dedupByUrl_not_seen _ _ d hd (hurl ▸ List.mem_cons_self _ _)

/-- Every pooled document's URL either was already seen or survives into
the deduplicated pool. -/
theorem dedupByUrl_covers (ds : List SearchDoc) (seen : List String) :
    ∀ d ∈ ds, d.url ∈ seen ∨ d.url ∈ (dedupByUrl ds seen).map (fun d => d.url) := by
  induction ds generalizing seen with
  | nil => simp
  | cons a ds ih =>
      intro d hd
      simp only [dedupByUrl]
      rcases List.mem_cons.mp hd with rfl | hd
      · split
        · rename_i hseen
          exact Or.inl hseen
        · right
          simp
      · split
        · exact ih seen d hd
        · rcases ih (a.url :: seen) d hd with h | h
          · rcases List.mem_cons.mp h with h | h
            · right
              simp [List.map_cons, h]
            · exact Or.inl h
          · simp only [List.map_cons]
            exact Or.inr (List.mem_cons_of_mem _ h)

/-- Every survivor of deduplication is the first pooled document carrying
its URL. -/
theorem dedupByUrl_first (ds : List SearchDoc) (seen : List String) :
    ∀ d ∈ dedupByUrl ds seen, ds.find? (fun x => x.url == d.url) = some d := by
  induction ds generalizing seen with
  | nil => simp [dedupByUrl]
  | cons a ds ih =>
      intro d hd
      simp only [dedupByUrl] at hd
      split at hd
      · rename_i hseen
        have hne : (a.url == d.url) = false := by
          simp only [beq_eq_false_iff_ne, ne_eq]
          intro h
          exact dedupByUrl_not_seen ds seen d hd (h ▸ hseen)
        rw [List.find?_cons, hne]
        exact ih seen d hd
      · rename_i hseen
        rcases List.mem_cons.mp hd with rfl | hd
        · rw [List.find?_cons, beq_self_eq_true]
        · have hne : (a.url == d.url) = false := by
            simp only [beq_eq_false_iff_ne, ne_eq]
            intro h
            exact dedupByUrl_not_seen ds (a.url :: seen) d hd
              (h ▸ List.mem_cons_self _ _)
          rw [List.find?_cons, hne]
          exact ih _ d hd

/-- Claim C5: `search_multi` concatenates the per-query result lists in
plan order (`poolQueries`) and deduplicates by URL with the first
occurrence winning: the output is an order-preserving sublist of the
pooled concatenation, its URLs are pairwise distinct (so one URL arising
from two queries yields exactly one pooled document), every pooled URL is
represented, and each survivor is the first pooled document with its URL. -/
theorem C5_merge_dedup
    (searchF : String → Int → Option Int → Option (List String) → Option String →
      Except String (List SearchDoc))
    (limit : Int) (queries : List QueryDict) (pooled out : List SearchDoc)
    (hpool : poolQueries searchF limit queries = .ok pooled)
    (hout : search_multi searchF queries limit = .ok out) :
    out.Sublist pooled ∧
    ((out.map (fun d => d.url)).Nodup) ∧
    (∀ d ∈ pooled, d.url ∈ out.map (fun d => d.url)) ∧
    (∀ d ∈ out, pooled.find? (fun x => x.url == d.url) = some d) := by
  have hdef : out = dedupByUrl pooled [] := by
    simp only [search_multi, hpool] at hout
    exact ((Except.ok.injEq _ _).mp hout).symm
  subst hdef
  refine ⟨dedupByUrl_sublist pooled [], dedupByUrl_nodup pooled [], ?_,
    dedupByUrl_first pooled []⟩
  intro d hd
  rcases dedupByUrl_covers pooled [] d hd with h | h
  · cases h
  · exact h

/-- Claim C5 witness: the two-query scenario with an overlapping URL
(`u1` returned by both queries) pools three documents and keeps exactly
the first occurrence of each URL. -/
theorem C5_merge_dedup_witness :
    ((cOut.map (fun d => d.url)).Nodup) ∧
    (∀ d ∈ cPooled, d.url ∈ cOut.map (fun d => d.url)) ∧
    cOut.Sublist cPooled :=
  ⟨(C5_merge_dedup cMultiOracle 8 cTwoQueries cPooled cOut rfl rfl).2.1,
   (C5_merge_dedup cMultiOracle 8 cTwoQueries cPooled cOut rfl rfl).2.2.1,
   (C5_merge_dedup cMultiOracle 8 cTwoQueries cPooled cOut rfl rfl).1⟩

/-- Claim C7 counterexample: in `SearchProvider.search_multi` (one of the
two cited fan-outs) there is no per-query exception handling: with three
queries whose second raises `TransportError`, the exception propagates out
of the fan-out and the results of queries 1 and 3 are discarded. -/
theorem C7_counterexample :
    search_multi cMultiOracle cThreeQueries 8 = .error "TransportError" := rfl

/-- Claim C7 (amended): in `DeepSeekerOrchestrator.run`'s search fan-out a
failing query is logged with its index and contributes nothing, every
successful query's relabeled batch survives in order into the merged pool,
and every pooled result stems from a successful query; in the (uncalled)
`SearchProvider.search_multi` variant, by contrast, the first failing
query's exception propagates and discards the whole pool. -/
theorem C7_isolation
    (searchE : Nat → SearchRequest → Except String (List SearchResult))
    (reqs : List SearchRequest) (i : Nat) :
    (∀ k req e, reqs[k]? = some req → searchE (i + k) req = .error e →
      searchFailEvent (i + k) req e ∈ (searchLoop searchE i reqs).2) ∧
    (∀ k req batch, reqs[k]? = some req → searchE (i + k) req = .ok batch →
      (relabelResults (i + k) batch).Sublist (searchLoop searchE i reqs).1) ∧
    (∀ r ∈ (searchLoop searchE i reqs).1, ∃ k req batch, reqs[k]? = some req ∧
      searchE (i + k) req = .ok batch ∧ r ∈ relabelResults (i + k) batch) := by
  induction reqs generalizing i with
  | nil =>
      refine ⟨?_, ?_, ?_⟩
      · intro k req e hk
        simp at hk
      · intro k req batch hk
        simp at hk
      · intro r hr
        simp [searchLoop] at hr
  | cons req0 rest ih =>
      have IH := ih (i + 1)
      cases hE : searchE i req0 with
      | error e0 =>
          refine ⟨?_, ?_, ?_⟩
          · intro k req e hk hkE
            cases k with
            | zero =>
                simp only [List.getElem?_cons_zero, Option.some.injEq] at hk
                subst hk
                rw [Nat.add_zero] at hkE ⊢
                rw [hE] at hkE
                obtain rfl : e0 = e := (Except.error.injEq _ _).mp hkE
                simp only [searchLoop, hE]
                exact List.mem_cons_of_mem _ (List.mem_cons_self _ _)
            | succ k =>
                simp only [List.getElem?_cons_succ] at hk
                rw [show i + (k + 1) = (i + 1) + k by omega] at hkE ⊢
                simp only [searchLoop, hE]
                exact List.mem_cons_of_mem _
                  (List.mem_cons_of_mem _ (IH.1 k req e hk hkE))
          · intro k req batch hk hkE
            cases k with
            | zero =>
                simp only [List.getElem?_cons_zero, Option.some.injEq] at hk
                subst hk
                rw [Nat.add_zero, hE] at hkE
                cases hkE
            | succ k =>
                simp only [List.getElem?_cons_succ] at hk
                rw [show i + (k + 1) = (i + 1) + k by omega] at hkE ⊢
                simp only [searchLoop, hE]
                exact IH.2.1 k req batch hk hkE
          · intro r hr
            simp only [searchLoop, hE] at hr
            obtain ⟨k, req, batch, h1, h2, h3⟩ := IH.2.2 r hr
            refine ⟨k + 1, req, batch, by simpa using h1, ?_, ?_⟩
            · rw [show i + (k + 1) = (i + 1) + k by omega]
              exact h2
            · rw [show i + (k + 1) = (i + 1) + k by omega]
              exact h3
      | ok batch0 =>
          refine ⟨?_, ?_, ?_⟩
          · intro k req e hk hkE
            cases k with
            | zero =>
                simp only [List.getElem?_cons_zero, Option.some.injEq] at hk
                subst hk
                rw [Nat.add_zero, hE] at hkE
                cases hkE
            | succ k =>
                simp only [List.getElem?_cons_succ] at hk
                rw [show i + (k + 1) = (i + 1) + k by omega] at hkE ⊢
                simp only [searchLoop, hE]
                exact List.mem_cons_of_mem _
                  (List.mem_cons_of_mem _ (IH.1 k req e hk hkE))
          · intro k req batch hk hkE
            cases k with
            | zero =>
                simp only [List.getElem?_cons_zero, Option.some.injEq] at hk
                subst hk
                rw [Nat.add_zero] at hkE ⊢
                rw [hE] at hkE
                obtain rfl : batch0 = batch := (Except.ok.injEq _ _).mp hkE
                simp only [searchLoop, hE]
                exact List.sublist_append_left _ _
            | succ k =>
                simp only [List.getElem?_cons_succ] at hk
                rw [show i + (k + 1) = (i + 1) + k by omega] at hkE ⊢
                simp only [searchLoop, hE]
                exact (IH.2.1 k req batch hk hkE).trans
                  (List.sublist_append_right _ _)
          · intro r hr
            simp only [searchLoop, hE] at hr
            rcases List.mem_append.mp hr with h | h
            · refine ⟨0, req0, batch0, by simp, ?_, ?_⟩
              · rw [Nat.add_zero]
                exact hE
              · rw [Nat.add_zero]
                exact h
            · obtain ⟨k, req, batch, h1, h2, h3⟩ := IH.2.2 r h
              refine ⟨k + 1, req, batch, by simpa using h1, ?_, ?_⟩
              · rw [show i + (k + 1) = (i + 1) + k by omega]
                exact h2
              · rw [show i + (k + 1) = (i + 1) + k by omega]
                exact h3

/-- Claim C7 witness: Scenario C at the orchestrator level — three queries
with query 2 raising `TransportError`: the failure of query 2 is recorded
in the audit events and the pool keeps the relabeled batches of queries 1
and 3. -/
theorem C7_isolation_witness :
    searchFailEvent 2 { query := "q2" } "TransportError" ∈
      (searchLoop cSearchMixed 1 cReqs3).2 ∧
    (relabelResults 1 [cRes 1]).Sublist (searchLoop cSearchMixed 1 cReqs3).1 ∧
    (relabelResults 3 [cRes 3]).Sublist (searchLoop cSearchMixed 1 cReqs3).1 :=
  ⟨(C7_isolation cSearchMixed cReqs3 1).1 1 { query := "q2" } "TransportError" rfl rfl,
   (C7_isolation cSearchMixed cReqs3 1).2.1 0 { query := "q1" } [cRes 1] rfl rfl,
   (C7_isolation cSearchMixed cReqs3 1).2.1 2 { query := "q3" } [cRes 3] rfl rfl⟩

/-- A task-group step preserves the collection of worker indices up to
permutation. -/
theorem TGStep_perm {s s' : TGState} (h : TGStep s s') :
    (s'.pending ++ s'.running ++ s'.finished).Perm
      (s.pending ++ s.running ++ s.finished) := by
  cases h with
  | start i p r f => exact List.Perm.append_right f List.perm_middle
  | finish i p r₁ r₂ f =>
      have hL : ((p ++ (r₁ ++ r₂)) ++ (f ++ [i])).Perm
          (i :: ((p ++ (r₁ ++ r₂)) ++ f)) := by
        rw [← List.append_assoc]
        exact List.perm_append_singleton _ _
      have hR : ((p ++ (r₁ ++ i :: r₂)) ++ f).Perm
          ((i :: (p ++ (r₁ ++ r₂))) ++ f) :=
        List.Perm.append_right f
          ((List.Perm.append_left p List.perm_middle).trans List.perm_middle)
      exact hL.trans hR.symm

/-- Every reachable task-group state partitions exactly the spawned worker
indices among its pending, running and finished slots. -/
theorem TGReach_perm {n : Nat} {s : TGState} (h : TGReach n s) :
    (s.pending ++ s.running ++ s.finished).Perm (List.range n) := by
  induction h with
  | init => simp [tgInit]
  | step _ hstep ih => exact (TGStep_perm hstep).trans ih

/-- The number of in-flight workers never exceeds the batch size. -/
theorem TGReach_running_le {n : Nat} {s : TGState} (h : TGReach n s) :
    s.running.length ≤ n := by
  have hlen := (TGReach_perm h).length_eq
  simp only [List.length_append, List.length_range] at hlen
  omega

/-- When the task group has joined (nothing pending, nothing running), the
completion order is a permutation of all spawned worker indices. -/
theorem TGReach_terminal_perm {n : Nat} {s : TGState} (h : TGReach n s)
    (hp : s.pending = []) (hr : s.running = []) :
    s.finished.Perm (List.range n) := by
  have hm := TGReach_perm h
  rw [hp, hr] at hm
  simpa using hm

/-- Collecting the image of an index range through positional lookup is
the map over the list itself. -/
theorem range_filterMap_get {α β : Type _} (docs : List α) (f : α → β) :
    (List.range docs.length).filterMap (fun i => (docs.get? i).map f) =
      docs.map f := by
  induction docs with
  | nil => simp
  | cons d ds ih =>
      rw [List.length_cons, List.range_succ_eq_map, List.filterMap_cons]
      have h0 : ((d :: ds).get? 0).map f = some (f d) := rfl
      rw [h0, List.filterMap_map]
      have heq : ((fun i => ((d :: ds).get? i).map f) ∘ Nat.succ) =
          (fun i => (ds.get? i).map f) := by
        funext i
        rfl
      rw [heq, ih, List.map_cons]

/-- At any completed (joined) task-group state the `results` list of
`run_parallel_readers` is a permutation of the per-document reports. -/
theorem readerResults_perm (readE : SearchDoc → Except String ReaderReport)
    (docs : List SearchDoc) (concurrency : Nat) (s : TGState)
    (h : TGReach docs.length s) (hp : s.pending = []) (hr : s.running = []) :
    (run_parallel_readers readE docs concurrency s).Perm
      (docs.map (reportFor readE)) := by
  unfold run_parallel_readers
  have h1 := (TGReach_terminal_perm h hp hr).filterMap
    (fun i => (docs.get? i).map (reportFor readE))
  rw [range_filterMap_get docs (reportFor readE)] at h1
  exact h1

/-- Claim C2: at every completed run of `run_parallel_readers` on `N`
documents the batch holds exactly `N` reports — a permutation of one report
per input document — and every document whose read raised yields the
synthetic report with `verdict="not_relevant"`, `reliability.rating = 0`
and the failure described in `reliability.reasons`; no requested document
is dropped. -/
theorem C2_reader_batch_complete (readE : SearchDoc → Except String ReaderReport)
    (docs : List SearchDoc) (concurrency : Nat) (s : TGState)
    (h : TGReach docs.length s) (hp : s.pending = []) (hr : s.running = []) :
    (run_parallel_readers readE docs concurrency s).length = docs.length ∧
    (run_parallel_readers readE docs concurrency s).Perm
      (docs.map (reportFor readE)) ∧
    ∀ doc ∈ docs, ∀ e, readE doc = .error e →
      syntheticReport doc e ∈ run_parallel_readers readE docs concurrency s := by
  have hres := readerResults_perm readE docs concurrency s h hp hr
  refine ⟨?_, hres, ?_⟩
  · rw [hres.length_eq, List.length_map]
  · intro doc hdoc e he
    rw [hres.mem_iff]
    refine List.mem_map.mpr ⟨doc, hdoc, ?_⟩
    simp [reportFor, he]

/-- Claim C2 witness: Scenario D in the small — a batch of two documents
whose second read raises `boom` completes with two reports, the second
synthetic. -/
theorem C2_reader_batch_complete_witness :
    (run_parallel_readers cReadE cDocs 6 cTermState).length = 2 ∧
    syntheticReport cDocB "boom" ∈ run_parallel_readers cReadE cDocs 6 cTermState := by
  have h0 : TGReach 2 (tgInit 2) := TGReach.init
  have h1 : TGReach 2 ⟨[1], [0], []⟩ := h0.step (TGStep.start 0 [1] [] [])
  have h2 : TGReach 2 ⟨[], [1, 0], []⟩ := h1.step (TGStep.start 1 [] [0] [])
  have h3 : TGReach 2 ⟨[], [1], [0]⟩ := h2.step (TGStep.finish 0 [] [1] [] [])
  have h4 : TGReach 2 ⟨[], [], [0, 1]⟩ := h3.step (TGStep.finish 1 [] [] [] [0])
  have T := C2_reader_batch_complete cReadE cDocs 6 cTermState h4 rfl rfl
  exact ⟨T.1, T.2.2 cDocB (by simp [cDocs]) "boom" rfl⟩

/-- Claim C3 counterexample: with two documents and concurrency limit 1 the
claim asserts at most one read in flight, but the task group of
`run_parallel_readers` starts workers without consulting the `concurrency`
parameter (no capacity limiter exists in the source), so the state with
both reads in flight is reachable. -/
theorem C3_counterexample :
    ¬ (∀ s, TGReach cDocs.length s → s.running.length ≤ 1) := by
  intro hall
  have h0 : TGReach 2 (tgInit 2) := TGReach.init
  have h1 : TGReach 2 ⟨[1], [0], []⟩ := h0.step (TGStep.start 0 [1] [] [])
  have h2 : TGReach 2 ⟨[], [1, 0], []⟩ := h1.step (TGStep.start 1 [] [0] [])
  have := hall ⟨[], [1, 0], []⟩ h2
  simp at this

/-- Claim C3 (amended): all reads are joined before the batch result is
returned — at any completed state every spawned worker has finished and
the batch is complete — but the only bound on simultaneous in-flight reads
is the batch size itself: the `concurrency` argument is ignored. -/
theorem C3_join_unbounded (readE : SearchDoc → Except String ReaderReport)
    (docs : List SearchDoc) (concurrency : Nat) (s : TGState)
    (h : TGReach docs.length s) :
    s.running.length ≤ docs.length ∧
    (s.pending = [] → s.running = [] →
      s.finished.Perm (List.range docs.length) ∧
      (run_parallel_readers readE docs concurrency s).length = docs.length) := by
  refine ⟨TGReach_running_le h, fun hp hr => ⟨TGReach_terminal_perm h hp hr, ?_⟩⟩
  rw [(readerResults_perm readE docs concurrency s h hp hr).length_eq,
    List.length_map]

/-- Claim C3 witness: the amended bound and join property at the completed
two-document state. -/
theorem C3_join_unbounded_witness :
    cTermState.running.length ≤ cDocs.length ∧
    cTermState.finished.Perm (List.range cDocs.length) := by
  have h0 : TGReach 2 (tgInit 2) := TGReach.init
  have h1 : TGReach 2 ⟨[1], [0], []⟩ := h0.step (TGStep.start 0 [1] [] [])
  have h2 : TGReach 2 ⟨[], [1, 0], []⟩ := h1.step (TGStep.start 1 [] [0] [])
  have h3 : TGReach 2 ⟨[], [1], [0]⟩ := h2.step (TGStep.finish 0 [] [1] [] [])
  have h4 : TGReach 2 ⟨[], [], [0, 1]⟩ := h3.step (TGStep.finish 1 [] [] [] [0])
  have T := C3_join_unbounded cReadE cDocs 6 cTermState h4
  exact ⟨T.1, (T.2 rfl rfl).1⟩

/-- Decimal digit characters are digits. -/
theorem digitChar_isDigit {n : Nat} (h : n < 10) :
    (Nat.digitChar n).isDigit = true := by
  interval_cases n <;> decide

/-- Value of a decimal digit character of a digit below ten. -/
theorem digitVal_digitChar {n : Nat} (h : n < 10) :
    digitVal (Nat.digitChar n) = n := by
  interval_cases n <;> decide

/-- The digit accumulator of `Nat.toDigitsCore` only prepends. -/
theorem toDigitsCore_append (b : Nat) :
    ∀ (fuel n : Nat) (ds : List Char),
      Nat.toDigitsCore b fuel n ds = Nat.toDigitsCore b fuel n [] ++ ds := by
  intro fuel
  induction fuel with
  | zero =>
      intro n ds
      simp [Nat.toDigitsCore]
  | succ fuel ih =>
      intro n ds
      simp only [Nat.toDigitsCore]
      split
      · simp
      · rw [ih (n / b) ((n % b).digitChar :: ds), ih (n / b) [(n % b).digitChar],
          List.append_assoc, List.singleton_append]

/-- Every character `Nat.toDigitsCore` produces in base ten is a decimal
digit. -/
theorem toDigitsCore_isDigit (fuel : Nat) :
    ∀ (n : Nat) (ds : List Char), (∀ c ∈ ds, c.isDigit = true) →
      ∀ c ∈ Nat.toDigitsCore 10 fuel n ds, c.isDigit = true := by
  induction fuel with
  | zero =>
      intro n ds hds
      simpa [Nat.toDigitsCore] using hds
  | succ fuel ih =>
      intro n ds hds c hc
      simp only [Nat.toDigitsCore] at hc
      split at hc
      · rcases List.mem_cons.mp hc with rfl | hc
        · exact digitChar_isDigit (Nat.mod_lt _ (by norm_num))
        · exact hds c hc
      · refine ih (n / 10) _ ?_ c hc
        intro c' hc'
        rcases List.mem_cons.mp hc' with rfl | hc'
        · exact digitChar_isDigit (Nat.mod_lt _ (by norm_num))
        · exact hds c' hc'

/-- Appending a digit multiplies the accumulated value by ten. -/
theorem digitsToNat_append_digit (xs : List Char) (c : Char) :
    digitsToNat (xs ++ [c]) = digitsToNat xs * 10 + digitVal c := by
  simp [digitsToNat, List.foldl_append]

/-- `Nat.toDigitsCore` in base ten with enough fuel writes exactly the
decimal representation of its argument. -/
theorem digitsToNat_toDigitsCore :
    ∀ (fuel n : Nat), n < fuel →
      digitsToNat (Nat.toDigitsCore 10 fuel n []) = n := by
  intro fuel
  induction fuel with
  | zero =>
      intro n h
      exact absurd h (Nat.not_lt_zero n)
  | succ fuel ih =>
      intro n hn
      simp only [Nat.toDigitsCore]
      split
      · rename_i h0
        have hlt : n < 10 := by
          rcases Nat.lt_or_ge n 10 with h | h
          · exact h
          · exact absurd h0 (by
              have : 0 < n / 10 := Nat.div_pos h (by norm_num)
              omega)
        have : digitsToNat [(n % 10).digitChar] = digitVal ((n % 10).digitChar) := by
          simp [digitsToNat]
        rw [this, digitVal_digitChar (Nat.mod_lt _ (by norm_num)),
          Nat.mod_eq_of_lt hlt]
      · rename_i h0
        have hge : 10 ≤ n := by
          rcases Nat.lt_or_ge n 10 with h | h
          · exact absurd (Nat.div_eq_of_lt h) h0
          · exact h
        have hfuel : n / 10 < fuel := by
          have h1 : n / 10 < n := Nat.div_lt_self (by omega) (by norm_num)
          omega
        rw [toDigitsCore_append 10 fuel (n / 10) [(n % 10).digitChar],
          digitsToNat_append_digit, ih (n / 10) hfuel,
          digitVal_digitChar (Nat.mod_lt _ (by norm_num))]
        omega

/-- The decimal value of the character data of `Nat.repr`. -/
theorem digitsToNat_repr (n : Nat) : digitsToNat (Nat.repr n).data = n :=
  digitsToNat_toDigitsCore (n + 1) n (Nat.lt_succ_self n)

/-- All characters of `Nat.repr` are decimal digits. -/
theorem repr_isDigit (n : Nat) : ∀ c ∈ (Nat.repr n).data, c.isDigit = true :=
  toDigitsCore_isDigit (n + 1) n [] (by simp)

/-- Splitting two concatenations at a separator absent from both prefixes. -/
theorem append_sep_inj {sep : Char} :
    ∀ (xs xs' ys ys' : List Char), sep ∉ xs → sep ∉ xs' →
      xs ++ sep :: ys = xs' ++ sep :: ys' → xs = xs' ∧ ys = ys' := by
  intro xs
  induction xs with
  | nil =>
      intro xs' ys ys' _ hxs' heq
      cases xs' with
      | nil => simpa using heq
      | cons a as =>
          simp only [List.nil_append, List.cons_append, List.cons.injEq] at heq
          exact absurd (heq.1 ▸ List.mem_cons_self a as) hxs'
  | cons x xs ih =>
      intro xs' ys ys' hxs hxs' heq
      cases xs' with
      | nil =>
          simp only [List.nil_append, List.cons_append, List.cons.injEq] at heq
          exact absurd (heq.1 ▸ List.mem_cons_self x xs) hxs
      | cons a as =>
          simp only [List.cons_append, List.cons.injEq] at heq
          obtain ⟨rfl, heq⟩ := heq
          obtain ⟨h1, h2⟩ := ih as ys ys'
            (fun hm => hxs (List.mem_cons_of_mem _ hm))
            (fun hm => hxs' (List.mem_cons_of_mem _ hm)) heq
          exact ⟨by rw [h1], h2⟩

/-- Pool-insertion identifiers are injective in the search index and the
result index. -/
theorem mkId_inj {i j i' j' : Nat} (h : mkId i j = mkId i' j') :
    i = i' ∧ j = j' := by
  have hdata := congrArg String.data h
  simp only [mkId, String.data_append, List.cons_append, List.nil_append,
    List.append_assoc, List.cons.injEq, true_and] at hdata
  have hnum : ∀ m : Nat, '_' ∉ (Nat.repr m).data := by
    intro m hm
    exact absurd (repr_isDigit m '_' hm) (by decide)
  obtain ⟨h1, h2⟩ := append_sep_inj (Nat.repr i).data (Nat.repr i').data _ _
    (hnum i) (hnum i') hdata
  simp only [List.cons.injEq, true_and] at h2
  constructor
  · have := congrArg digitsToNat h1
    rwa [digitsToNat_repr, digitsToNat_repr] at this
  · have := congrArg digitsToNat h2
    rwa [digitsToNat_repr, digitsToNat_repr] at this

/-- Every relabeled result of one batch carries an id of its own search
index with a result counter at least the starting counter. -/
theorem relabelFrom_ids (idx k : Nat) (batch : List SearchResult) :
    ∀ r ∈ relabelFrom idx k batch, ∃ m, k ≤ m ∧ r.id = mkId idx m := by
  induction batch generalizing k with
  | nil => simp [relabelFrom]
  | cons b bs ih =>
      intro r hr
      rcases List.mem_cons.mp hr with rfl | hr
      · exact ⟨k, le_refl k, rfl⟩
      · obtain ⟨m, hm, hid⟩ := ih (k + 1) r hr
        exact ⟨m, by omega, hid⟩

/-- The relabeled ids of one batch are pairwise distinct. -/
theorem relabelFrom_nodup (idx k : Nat) (batch : List SearchResult) :
    ((relabelFrom idx k batch).map (fun r => r.id)).Nodup := by
  induction batch generalizing k with
  | nil => simp [relabelFrom]
  | cons b bs ih =>
      simp only [relabelFrom, List.map_cons, List.nodup_cons]
      refine ⟨?_, ih (k + 1)⟩
      intro hmem
      obtain ⟨r, hr, hid⟩ := List.mem_map.mp hmem
      obtain ⟨m, hm, hid'⟩ := relabelFrom_ids idx (k + 1) bs r hr
      rw [hid'] at hid
      obtain ⟨-, hj⟩ := mkId_inj hid
      omega

/-- Every pooled result of the fan-out carries an id of some search index
at least the starting index. -/
theorem searchLoop_ids
    (searchE : Nat → SearchRequest → Except String (List SearchResult)) :
    ∀ (reqs : List SearchRequest) (i : Nat),
      ∀ r ∈ (searchLoop searchE i reqs).1,
        ∃ idx m, i ≤ idx ∧ 1 ≤ m ∧ r.id = mkId idx m := by
  intro reqs
  induction reqs with
  | nil =>
      intro i r hr
      simp [searchLoop] at hr
  | cons req rest ih =>
      intro i r hr
      cases hE : searchE i req with
      | error e =>
          rw [searchLoop] at hr
          rw [hE] at hr
          obtain ⟨idx, m, h1, h2, h3⟩ := ih (i + 1) r hr
          exact ⟨idx, m, by omega, h2, h3⟩
      | ok batch =>
          rw [searchLoop] at hr
          rw [hE] at hr
          rcases List.mem_append.mp hr with hmem | hmem
          · obtain ⟨m, hm, hid⟩ := relabelFrom_ids i 1 batch r hmem
            exact ⟨i, m, le_refl i, hm, hid⟩
          · obtain ⟨idx, m, h1, h2, h3⟩ := ih (i + 1) r hmem
            exact ⟨idx, m, by omega, h2, h3⟩

/-- The pool-insertion ids collected by the orchestrator's search fan-out
are pairwise distinct (unique across all searches of the session). -/
theorem searchLoop_nodup
    (searchE : Nat → SearchRequest → Except String (List SearchResult)) :
    ∀ (reqs : List SearchRequest) (i : Nat),
      (((searchLoop searchE i reqs).1).map (fun r => r.id)).Nodup := by
  intro reqs
  induction reqs with
  | nil =>
      intro i
      simp [searchLoop]
  | cons req rest ih =>
      intro i
      cases hE : searchE i req with
      | error e =>
          rw [searchLoop, hE]
          exact ih (i + 1)
      | ok batch =>
          rw [searchLoop, hE]
          simp only [List.map_append]
          rw [List.nodup_append]
          refine ⟨relabelFrom_nodup i 1 batch, ih (i + 1), ?_⟩
          intro a ha ha'
          obtain ⟨r, hr, rfl⟩ := List.mem_map.mp ha
          obtain ⟨r', hr', hid⟩ := List.mem_map.mp ha'
          obtain ⟨m, hm, h1⟩ := relabelFrom_ids i 1 batch r hr
          obtain ⟨idx', m', hidx', hm', h2⟩ := searchLoop_ids searchE rest (i + 1) r' hr'
          rw [h1] at hid
          rw [h2] at hid
          obtain ⟨hi, -⟩ := mkId_inj hid.symm
          omega

/-- Claim C8: within one session every doc id assigned at pool-insertion
time is unique — two distinct pooled results never share an id, across all
searches — and the ids are stable: the report returned by `run` carries
either no pool or exactly the insertion-time relabeled pool, never a
re-labeled one. -/
theorem C8_docid_unique_stable (planE : Except String PlanDecision)
    (searchE : Nat → SearchRequest → Except String (List SearchResult))
    (selectE : List SearchResult → Except String SelectionDecision)
    (fetchE : String → Except String String)
    (summE : String → String → String → String → Except String ArticleSummary)
    (synthE : List SearchResult → List ArticleSummary → Except String FinalAnswer)
    (question : String) (r : DeepSeekerReport)
    (h : runE planE searchE selectE fetchE summE synthE question = .ok r) :
    ((r.search_results.map (fun x => x.id)).Nodup) ∧
    (r.search_results = [] ∨ ∃ plan, planE = .ok plan ∧
      r.search_results = (searchLoop searchE 1 plan.search_requests).1) := by
  cases hplanE : planE with
  | error e =>
      rw [hplanE] at h
      simp [runE] at h
  | ok plan =>
      rw [hplanE] at h
      simp only [runE] at h
      split at h
      · cases h
        exact ⟨by simp, Or.inl rfl⟩
      · split at h
        · cases h
          exact ⟨by simp, Or.inl rfl⟩
        · split at h
          · cases h
            exact ⟨by simp, Or.inl rfl⟩
          · split at h
            · cases h
            · split at h
              · cases h
                exact ⟨searchLoop_nodup searchE plan.search_requests 1,
                  Or.inr ⟨plan, rfl, rfl⟩⟩
              · split at h
                · cases h
                  exact ⟨searchLoop_nodup searchE plan.search_requests 1,
                    Or.inr ⟨plan, rfl, rfl⟩⟩
                · split at h
                  · cases h
                  · cases h
                    exact ⟨searchLoop_nodup searchE plan.search_requests 1,
                      Or.inr ⟨plan, rfl, rfl⟩⟩

/-- Claim C8 witness: a session with one successful search and an empty
selection returns the insertion-time relabeled pool with distinct ids. -/
theorem C8_docid_unique_stable_witness :
    ((cNoTargetsReport.search_results.map (fun x => x.id)).Nodup) ∧
    (cNoTargetsReport.search_results = [] ∨ ∃ plan, cPlanSearch = .ok plan ∧
      cNoTargetsReport.search_results =
        (searchLoop cSearchOk 1 plan.search_requests).1) :=
  C8_docid_unique_stable cPlanSearch cSearchOk cSelectNone cFetchNone cSummNone
    cSynthNone "q" cNoTargetsReport rfl

/-- Claim C1 counterexample: when the planner asks for a search and every
search call raises, `run` returns a report whose `final_answer` is unset
(`None`) — an execution path the claim says must not exist. -/
theorem C1_counterexample :
    (runE cPlanSearch cSearchFail cSelectNone cFetchNone cSummNone cSynthNone
      "q").map (fun r => r.final_answer) = .ok none := rfl

/-- Claim C1 (amended): whenever `run` returns a report, that report's
`final_answer` is set exactly when the plan chose a truthy direct answer or
at least one article summary was produced; on the abort paths (no search
requests, all searches failed or empty, empty read selection, no
summaries) the report is returned with `final_answer` unset. -/
theorem C1_final_answer_characterization (planE : Except String PlanDecision)
    (searchE : Nat → SearchRequest → Except String (List SearchResult))
    (selectE : List SearchResult → Except String SelectionDecision)
    (fetchE : String → Except String String)
    (summE : String → String → String → String → Except String ArticleSummary)
    (synthE : List SearchResult → List ArticleSummary → Except String FinalAnswer)
    (question : String) (r : DeepSeekerReport)
    (h : runE planE searchE selectE fetchE summE synthE question = .ok r) :
    r.final_answer.isSome = true ↔
      (directPathB planE = true ∨ r.raw_summaries ≠ []) := by
  cases hplanE : planE with
  | error e =>
      rw [hplanE] at h
      simp [runE] at h
  | ok plan =>
      rw [hplanE] at h
      simp only [runE] at h
      simp only [directPathB]
      split at h
      · rename_i hb1
        cases h
        simp [hb1]
      · rename_i hb1
        split at h
        · cases h
          simp [hb1]
        · split at h
          · cases h
            simp [hb1]
          · split at h
            · cases h
            · split at h
              · cases h
                simp [hb1]
              · split at h
                · rename_i hb5
                  cases h
                  rw [List.isEmpty_iff] at hb5
                  simp [hb1, hb5]
                · rename_i hb5
                  split at h
                  · cases h
                  · cases h
                    rw [List.isEmpty_iff] at hb5
                    simp [hb1, hb5]

/-- Claim C1 witness: Scenario B — a direct answer `"42"` yields a report
whose `final_answer` is set, matching the direct-path disjunct. -/
theorem C1_final_answer_characterization_witness :
    cDirectReport.final_answer.isSome = true ↔
      (directPathB cPlanDirect = true ∨ cDirectReport.raw_summaries ≠ []) :=
  C1_final_answer_characterization cPlanDirect cSearchFail cSelectNone cFetchNone
    cSummNone cSynthNone "q" cDirectReport rfl

/-- A truthy JSON string is non-empty. -/
theorem pyTruthy_str {s : String} (h : pyTruthy (.str s) = true) : s ≠ "" := by
  simpa [pyTruthy] using h

/-- Anatomy of a kept block: the call keeps the block's truthy `tool`
value and a dictionary `args`. -/
theorem processBlock_some {data : PyJson} {call : ToolCall}
    (h : processBlock data = some call) :
    pyTruthy call.tool = true ∧ call.args.isObj = true ∧
    call.tool = dGetD data "tool" := by
  simp only [processBlock] at h
  split at h
  · cases h
  · rename_i htool
    split at h
    · rename_i fs heq
      cases h
      refine ⟨?_, rfl, rfl⟩
      simpa using htool
    · cases h

/-- A block with a falsy `tool` is skipped. -/
theorem processBlock_falsy_tool {data : PyJson}
    (h : pyTruthy (dGetD data "tool") = false) : processBlock data = none := by
  simp [processBlock, h]

/-- A block carrying a truthy non-dictionary `args` is skipped. -/
theorem processBlock_bad_args {data : PyJson}
    (ha : pyTruthy (dGetD data "args") = true)
    (hno : (dGetD data "args").isObj = false) : processBlock data = none := by
  simp only [processBlock, ha, if_true]
  split
  · rfl
  · split
    · rename_i fs heq
      rw [heq] at hno
      simp [PyJson.isObj] at hno
    · rfl

/-- When the block carries no truthy `id`, the call id defaults to the
string conversion of the (string) tool name. -/
theorem processBlock_id_default {data : PyJson} {call : ToolCall}
    (h : processBlock data = some call)
    (hid : pyTruthy (dGetD data "id") = false) :
    ∀ s, dGetD data "tool" = .str s → call.id = s := by
  intro s hs
  simp only [processBlock, hid, if_false, hs] at h
  split at h
  · cases h
  · rename_i htool
    have htool' : pyTruthy (PyJson.str s) = true := by
      simpa using htool
    rw [if_pos htool'] at h
    split at h
    · cases h
      rfl
    · cases h

/-- Claim C10 counterexample: the fenced block `{"tool": "t", "args": []}`
has a non-dictionary `args`, yet it is not skipped — `args = data.get("args")
or {}` replaces the falsy list by the empty dictionary and the call is
kept. -/
theorem C10_counterexample :
    jparse "\x7b\"tool\": \"t\", \"args\": []\x7d" =
      some (.obj [("tool", .str "t"), ("args", .arr [])]) ∧
    parse_tool_calls cToolText = [cToolCall] ∧
    cToolCall.args = .obj [] :=
  ⟨rfl, rfl, rfl⟩

/-- Claim C10 (amended): `parse_tool_calls` is total and filtering: every
returned call carries a truthy `tool` (a non-empty string whenever it is a
string) and a dictionary `args`; a block whose `tool` is falsy, or whose
`args` is a truthy non-dictionary, is skipped rather than reported; a falsy
`args` (absent, `null`, `[]`, `""`, `0`, `false`) is replaced by the empty
dictionary; and when a block has no truthy `id`, the call's id defaults to
its (string) tool name. -/
theorem C10_parse_tool_calls_filtered (text : String) :
    (∀ call ∈ parse_tool_calls text,
      pyTruthy call.tool = true ∧ call.args.isObj = true ∧
      (∀ s, call.tool = .str s → s ≠ "")) ∧
    (∀ data : PyJson, pyTruthy (dGetD data "tool") = false →
      processBlock data = none) ∧
    (∀ data : PyJson, pyTruthy (dGetD data "args") = true →
      (dGetD data "args").isObj = false → processBlock data = none) ∧
    (∀ (data : PyJson) (call : ToolCall), processBlock data = some call →
      pyTruthy (dGetD data "id") = false →
      ∀ s, dGetD data "tool" = .str s → call.id = s) := by
  refine ⟨?_, fun data h => processBlock_falsy_tool h,
    fun data h1 h2 => processBlock_bad_args h1 h2,
    fun data call h hid => processBlock_id_default h hid⟩
  intro call hcall
  unfold parse_tool_calls at hcall
  obtain ⟨raw, -, hres⟩ := List.mem_filterMap.mp hcall
  obtain ⟨data, -, hblock⟩ := Option.bind_eq_some.mp hres
  obtain ⟨h1, h2, h3⟩ := processBlock_some hblock
  refine ⟨h1, h2, ?_⟩
  intro s hs
  rw [hs] at h1
  exact pyTruthy_str h1

/-- Claim C10 witness: the call kept from `cToolText` has a truthy
non-empty tool name and dictionary args. -/
theorem C10_parse_tool_calls_filtered_witness :
    pyTruthy cToolCall.tool = true ∧ cToolCall.args.isObj = true :=
  ⟨((C10_parse_tool_calls_filtered cToolText).1 cToolCall
      (by simp [show parse_tool_calls cToolText = [cToolCall] from rfl])).1,
   ((C10_parse_tool_calls_filtered cToolText).1 cToolCall
      (by simp [show parse_tool_calls cToolText = [cToolCall] from rfl])).2.1⟩
